import Mathlib

/-!
Verification development for the `vsomeipc` C facade of the bnsmw repository
(src/vsomeiprs/vsomeipc).  The C++ sources are shallowly embedded: each
facade operation becomes a Lean function over explicit state, machine
integers become `Nat` (no arithmetic is performed on ids, so no wrap-around
is reachable on the modelled paths), nullable pointers and `shared_ptr`s
become `Option`, and `exit(1)` on an invalid enum becomes `none` of an
`Option` result.
-/

/-- Wire value `MT_REQUEST = 0x00` of `enum message_type` (vsomeipc.h) and of
`vsomeip::message_type_e`, which uses the same SOME/IP wire values. -/
def MT_REQUEST : Nat := 0x00

/-- Wire value `MT_REQUEST_NO_RETURN = 0x01`. -/
def MT_REQUEST_NO_RETURN : Nat := 0x01

/-- Wire value `MT_NOTIFICATION = 0x02`. -/
def MT_NOTIFICATION : Nat := 0x02

/-- Wire value `MT_REQUEST_ACK = 0x40`. -/
def MT_REQUEST_ACK : Nat := 0x40

/-- Wire value `MT_REQUEST_NO_RETURN_ACK = 0x41`. -/
def MT_REQUEST_NO_RETURN_ACK : Nat := 0x41

/-- Wire value `MT_NOTIFICATION_ACK = 0x42`. -/
def MT_NOTIFICATION_ACK : Nat := 0x42

/-- Wire value `MT_RESPONSE = 0x80`. -/
def MT_RESPONSE : Nat := 0x80

/-- Wire value `MT_ERROR = 0x81`. -/
def MT_ERROR : Nat := 0x81

/-- Wire value `MT_RESPONSE_ACK = 0xC0`. -/
def MT_RESPONSE_ACK : Nat := 0xC0

/-- Wire value `MT_ERROR_ACK = 0xC1`. -/
def MT_ERROR_ACK : Nat := 0xC1

/-- Wire value `MT_UNKNOWN = 0xFF`. -/
def MT_UNKNOWN : Nat := 0xFF

/-- Wire value `E_OK = 0x00` of `enum return_code` (vsomeipc.h) and of
`vsomeip::return_code_e`. -/
def E_OK : Nat := 0x00

/-- Wire value `E_NOT_OK = 0x01`. -/
def E_NOT_OK : Nat := 0x01

/-- Wire value `E_UNKNOWN_SERVICE = 0x02`. -/
def E_UNKNOWN_SERVICE : Nat := 0x02

/-- Wire value `E_UNKNOWN_METHOD = 0x03`. -/
def E_UNKNOWN_METHOD : Nat := 0x03

/-- Wire value `E_NOT_READY = 0x04`. -/
def E_NOT_READY : Nat := 0x04

/-- Wire value `E_NOT_REACHABLE = 0x05`. -/
def E_NOT_REACHABLE : Nat := 0x05

/-- Wire value `E_TIMEOUT = 0x06`. -/
def E_TIMEOUT : Nat := 0x06

/-- Wire value `E_WRONG_PROTOCOL_VERSION = 0x07`. -/
def E_WRONG_PROTOCOL_VERSION : Nat := 0x07

/-- Wire value `E_WRONG_INTERFACE_VERSION = 0x08`. -/
def E_WRONG_INTERFACE_VERSION : Nat := 0x08

/-- Wire value `E_MALFORMED_MESSAGE = 0x09`. -/
def E_MALFORMED_MESSAGE : Nat := 0x09

/-- Wire value `E_WRONG_MESSAGE_TYPE = 0x0A`. -/
def E_WRONG_MESSAGE_TYPE : Nat := 0x0A

/-- Wire value `E_UNKNOWN = 0xFF`. -/
def E_UNKNOWN : Nat := 0xFF

/-- A `vsomeip::payload` is an owned contiguous byte buffer; modelled as the
list of its bytes (each a `Nat < 256` in the intended use; no claim depends
on the bound). -/
abbrev Payload := List Nat

/-- `vsomeip::runtime::create_payload(data, size)`: copies the `size` bytes at
`data` into a fresh payload.  The input buffer is modelled as the list of the
`size` bytes it holds. -/
def create_payload (data : List Nat) : Payload := data

/-- `vsomeip::runtime::create_payload()`: a fresh empty payload. -/
def create_payload_empty : Payload := []

/-- A `vsomeip::message`: the SOME/IP header fields plus reliability flag and
optional attached payload.  `client` and `session` are `Option Nat` so that
"never assigned by any setter" (`none`) is distinguishable from an assigned
id; the C++ header stores `0` in the unassigned state and `get_client` /
`get_session` read that raw field, modelled by `getD 0`. -/
structure Message where
  service : Nat
  instance_ : Nat
  method : Nat
  client : Option Nat
  session : Option Nat
  interface_version : Nat
  message_type : Nat
  return_code : Nat
  reliable : Bool
  payload : Option Payload
deriving DecidableEq, Repr

/-- `message::set_service`. -/
def Message.set_service (m : Message) (v : Nat) : Message := { m with service := v }

/-- `message::set_instance`. -/
def Message.set_instance (m : Message) (v : Nat) : Message := { m with instance_ := v }

/-- `message::set_method`. -/
def Message.set_method (m : Message) (v : Nat) : Message := { m with method := v }

/-- `message::set_client`. -/
def Message.set_client (m : Message) (v : Nat) : Message := { m with client := some v }

/-- `message::set_session`. -/
def Message.set_session (m : Message) (v : Nat) : Message := { m with session := some v }

/-- `message::set_interface_version`. -/
def Message.set_interface_version (m : Message) (v : Nat) : Message :=
  { m with interface_version := v }

/-- `message::set_message_type`. -/
def Message.set_message_type (m : Message) (v : Nat) : Message := { m with message_type := v }

/-- `message::set_return_code`. -/
def Message.set_return_code (m : Message) (v : Nat) : Message := { m with return_code := v }

/-- `message::set_payload`. -/
def Message.set_payload (m : Message) (p : Payload) : Message := { m with payload := some p }

/-- `message::get_session`: reads the raw header field, `0` when never
assigned. -/
def Message.get_session (m : Message) : Nat := m.session.getD 0

/-- `vsomeip::runtime::create_request(reliable)`: a fresh request message —
message type `MT_REQUEST`, return code `E_OK`, the given reliability, no
payload, client and session ids not yet assigned. -/
def create_request (reliable : Bool) : Message :=
  { service := 0, instance_ := 0, method := 0, client := none, session := none,
    interface_version := 0, message_type := MT_REQUEST, return_code := E_OK,
    reliable := reliable, payload := none }

/-- `vsomeip::runtime::create_message(reliable)`: a fresh message with the
given reliability, no payload, client and session ids not yet assigned.
(The default message type is irrelevant to every modelled path, which sets
it explicitly; `MT_UNKNOWN` is used here.) -/
def create_message (reliable : Bool) : Message :=
  { service := 0, instance_ := 0, method := 0, client := none, session := none,
    interface_version := 0, message_type := MT_UNKNOWN, return_code := E_OK,
    reliable := reliable, payload := none }

/-- The per-session state of the external vsomeip runtime that the send path
observes: the application's own client id and the next session id it will
hand out. -/
structure RuntimeState where
  client_id : Nat
  nextSession : Nat
deriving DecidableEq, Repr

/-- Modelled from the spec (the Runtime is an external collaborator):
`vsomeip::application::send(msg)` assigns the client and session ids of a
request whose session has not been assigned yet, and transmits every other
message unchanged.  Returns the message as transmitted (the C++ send mutates
the shared message object, so the caller observes these fields afterwards)
and the updated runtime state. -/
def vsomeip_send (st : RuntimeState) (m : Message) : Message × RuntimeState :=
  if m.message_type = MT_REQUEST ∧ m.session = none then
    ({ m with client := some st.client_id, session := some st.nextSession },
     { st with nextSession := st.nextSession + 1 })
  else
    (m, st)

/-- `application::send_request` (application.cpp:209-222): creates a payload
from the data, creates a request, sets service/instance/method/payload/
interface-version, sends it, and returns `msg->get_session()` of the sent
(mutated) message.  The result records the message as built by the facade
(`built`, the object handed to `send`), the message as transmitted (`sent`),
the session id returned to the caller (`ret`), and the new runtime state. -/
def send_request (st : RuntimeState) (service instance_ method : Nat)
    (major : Nat) (data : List Nat) (reliable : Bool) :
    Message × Message × Nat × RuntimeState :=
  let payload := create_payload data
  let msg := ((((create_request reliable).set_service service).set_instance
      instance_).set_method method).set_payload payload |>.set_interface_version major
  let sent := vsomeip_send st msg
  (msg, sent.1, sent.1.get_session, sent.2)

/-- `application::send_response` (application.cpp:224-240): creates a payload
from the data, creates a message, sets service/instance/method/client/
session/interface-version, fixes the message type to `MT_RESPONSE`, sets the
return code, attaches the payload, and sends.  Returns the transmitted
message and the new runtime state; the first component is also exactly the
message handed to `send`, since `vsomeip_send` only alters unassigned
requests. -/
def send_response (st : RuntimeState) (service instance_ method client session : Nat)
    (major : Nat) (reliable : Bool) (rc : Nat) (data : List Nat) :
    Message × RuntimeState :=
  let payload := create_payload data
  let msg := ((((((((create_message reliable).set_service service).set_instance
      instance_).set_method method).set_client client).set_session
      session).set_interface_version major).set_message_type
      MT_RESPONSE).set_return_code rc |>.set_payload payload
  vsomeip_send st msg

/-- `application::send_error` (application.cpp:242-255): like `send_response`
but creates no payload and never attaches one; message type is likewise
fixed to `MT_RESPONSE`. -/
def send_error (st : RuntimeState) (service instance_ method client session : Nat)
    (major : Nat) (reliable : Bool) (rc : Nat) : Message × RuntimeState :=
  let msg := (((((((create_message reliable).set_service service).set_instance
      instance_).set_method method).set_client client).set_session
      session).set_interface_version major).set_message_type
      MT_RESPONSE |>.set_return_code rc
  vsomeip_send st msg

/-- `from(message_type)` (vsomeipc.cpp:92-110): translates the boundary
`enum message_type` value to the `vsomeip::message_type_e` value with the
same numeric wire value; on any unrecognized value the C code prints a
diagnostic and calls `exit(1)`, modelled as `none`. -/
def fromMessageType (mt : Nat) : Option Nat :=
  if mt = MT_REQUEST then some MT_REQUEST
  else if mt = MT_REQUEST_NO_RETURN then some MT_REQUEST_NO_RETURN
  else if mt = MT_NOTIFICATION then some MT_NOTIFICATION
  else if mt = MT_REQUEST_ACK then some MT_REQUEST_ACK
  else if mt = MT_REQUEST_NO_RETURN_ACK then some MT_REQUEST_NO_RETURN_ACK
  else if mt = MT_NOTIFICATION_ACK then some MT_NOTIFICATION_ACK
  else if mt = MT_RESPONSE then some MT_RESPONSE
  else if mt = MT_ERROR then some MT_ERROR
  else if mt = MT_RESPONSE_ACK then some MT_RESPONSE_ACK
  else if mt = MT_ERROR_ACK then some MT_ERROR_ACK
  else if mt = MT_UNKNOWN then some MT_UNKNOWN
  else none

/-- `from(return_code)` (vsomeipc.cpp:112-131): translates the boundary
`enum return_code` value to the `vsomeip::return_code_e` value with the same
numeric wire value; on any unrecognized value the C code prints a diagnostic
and calls `exit(1)`, modelled as `none`. -/
def fromReturnCode (rt : Nat) : Option Nat :=
  if rt = E_OK then some E_OK
  else if rt = E_NOT_OK then some E_NOT_OK
  else if rt = E_UNKNOWN_SERVICE then some E_UNKNOWN_SERVICE
  else if rt = E_UNKNOWN_METHOD then some E_UNKNOWN_METHOD
  else if rt = E_NOT_READY then some E_NOT_READY
  else if rt = E_NOT_REACHABLE then some E_NOT_REACHABLE
  else if rt = E_TIMEOUT then some E_TIMEOUT
  else if rt = E_WRONG_PROTOCOL_VERSION then some E_WRONG_PROTOCOL_VERSION
  else if rt = E_WRONG_INTERFACE_VERSION then some E_WRONG_INTERFACE_VERSION
  else if rt = E_MALFORMED_MESSAGE then some E_MALFORMED_MESSAGE
  else if rt = E_WRONG_MESSAGE_TYPE then some E_WRONG_MESSAGE_TYPE
  else if rt = E_UNKNOWN then some E_UNKNOWN
  else none

/-- The recognized `enum message_type` values (vsomeipc.h:21-33). -/
def recognizedMessageTypes : List Nat :=
  [0x00, 0x01, 0x02, 0x40, 0x41, 0x42, 0x80, 0x81, 0xC0, 0xC1, 0xFF]

/-- The recognized `enum return_code` values (vsomeipc.h:35-48). -/
def recognizedReturnCodes : List Nat :=
  [0x00, 0x01, 0x02, 0x03, 0x04, 0x05, 0x06, 0x07, 0x08, 0x09, 0x0A, 0xFF]

/-- The outcome of the external calls `application::create` depends on:
whether `runtime->create_application(name)` returns a non-null object and
whether `application->init()` succeeds. -/
structure RuntimeEnv where
  createApplicationOk : Bool
  initOk : Bool
deriving DecidableEq, Repr

/-- The caller-observable part of a C++ `application` object: the name it
was created with and whether its dispatch-loop thread is running (set by
`application::start`, which spawns `_dispatch_thread`). -/
structure ApplicationObj where
  app_name : String
  dispatchRunning : Bool
deriving DecidableEq, Repr

/-- `application::create(name)` (application.cpp:6-21): creates the vsomeip
application via the runtime (null → return `nullptr`), initializes it
(failure → return `nullptr`), otherwise constructs the facade object
(dispatch thread not yet running), calls `start()` on it and returns it. -/
def application_create (e : RuntimeEnv) (nm : String) : Option ApplicationObj :=
  if !e.createApplicationOk then none
  else if !e.initOk then none
  else
    let af : ApplicationObj := { app_name := nm, dispatchRunning := false }
    some { af with dispatchRunning := true }

/-- `create_application(name)` (vsomeipc.cpp:11-17): calls
`application::create`; on success wraps the shared pointer in a fresh handle
cell, otherwise returns the null handle (`none`). -/
def create_application (e : RuntimeEnv) (nm : String) : Option ApplicationObj :=
  match application_create e nm with
  | some af => some af
  | none => none

/-- The runtime-visible events issued by `application::stop` and
`application::~application`. -/
inductive RtEvent where
  | clearAllHandlers
  | appStop
  | joinThread
  | removeApplication
deriving DecidableEq, Repr, BEq

/-- The teardown-relevant state of an `application`: whether the underlying
vsomeip application's blocking run loop is active, and whether the
`_dispatch_thread` is joinable (i.e. was started and not yet joined). -/
structure AppCore where
  runLoopActive : Bool
  threadJoinable : Bool
deriving DecidableEq, Repr

/-- `application::stop` (application.cpp:65-70): calls
`_application->stop()` (unblocking the run loop), then joins
`_dispatch_thread` if and only if it is joinable.  Returns the new state and
the list of events issued, in order. -/
def application_stop (s : AppCore) : AppCore × List RtEvent :=
  let s1 : AppCore := { s with runLoopActive := false }
  if s1.threadJoinable then
    ({ s1 with threadJoinable := false }, [RtEvent.appStop, RtEvent.joinThread])
  else
    (s1, [RtEvent.appStop])

/-- `application::~application` (application.cpp:32-40): when `_application`
is non-null, calls `clear_all_handler()`, then `stop()`, then
`runtime->remove_application(name)`; otherwise does nothing.  Returns the
new state and the list of events issued, in order. -/
def application_destructor (hasApp : Bool) (s : AppCore) : AppCore × List RtEvent :=
  if hasApp then
    let stopped := application_stop s
    (stopped.1, RtEvent.clearAllHandlers :: stopped.2 ++ [RtEvent.removeApplication])
  else
    (s, [])

/-- `application_delete(app)` (vsomeipc.cpp:19-23): frees the handle cell
only when the handle is non-null and the shared pointer inside it is
non-null.  A handle (`application_t`) is a pointer to a `shared_ptr`, so it
is modelled as `Option (Option ApplicationObj)`; the result is `true` iff an
object is freed. -/
def application_delete (app : Option (Option ApplicationObj)) : Bool :=
  match app with
  | some (some _) => true
  | _ => false

/-- `payload_destroy(pl)` (vsomeipc.cpp:88-90): `delete pl` — frees the
handle cell iff the handle is non-null (C++ `delete` on a null pointer is a
no-op); the result is `true` iff an object is freed. -/
def payload_destroy (pl : Option (Option Payload)) : Bool :=
  pl.isSome

/-- `message_destroy(msg)` (vsomeipc.cpp:160-162): `delete msg` — frees the
handle cell iff the handle is non-null; the result is `true` iff an object
is freed. -/
def message_destroy (msg : Option (Option Message)) : Bool :=
  msg.isSome

/-- The branch of `application_payload_create` / `payload_create_empty` on
the shared pointer returned by the runtime: a non-null payload is wrapped in
a fresh handle cell, a null one yields the null handle (vsomeipc.cpp:72-86). -/
def wrap_payload_handle (pl : Option Payload) : Option (Option Payload) :=
  match pl with
  | some p => some (some p)
  | none => none

/-- `application_payload_create(app, data, size)` (vsomeipc.cpp:72-78):
creates a payload from the bytes via the runtime and wraps it in a handle. -/
def application_payload_create (data : List Nat) : Option (Option Payload) :=
  wrap_payload_handle (some (create_payload data))

/-- `payload_create_empty(app)` (vsomeipc.cpp:80-86): creates an empty
payload via the runtime and wraps it in a handle. -/
def payload_create_empty_c : Option (Option Payload) :=
  wrap_payload_handle (some create_payload_empty)

/-- The `PayloadInfo` struct returned across the boundary: data pointer
(`none` = null) and length. -/
structure PayloadInfo where
  data : Option (List Nat)
  len : Nat
deriving DecidableEq, Repr

/-- `payload_get_info(pl)` (vsomeipc.cpp:282-289): asserts the handle is
non-null (`none` models the contract violation); when the shared pointer
inside the cell holds a payload, returns its data pointer and length,
otherwise `{null, 0}`. -/
def payload_get_info (pl : Option (Option Payload)) : Option PayloadInfo :=
  match pl with
  | none => none
  | some (some p) => some { data := some p, len := p.length }
  | some none => some { data := none, len := 0 }

/-- The loop of `application_offer_event` / `application_request_event`
(vsomeipc.cpp:206-209, 226-229): inserts each array element into an
initially empty `std::set`. -/
def eventgroups_to_set (egs : List Nat) : Finset Nat :=
  egs.foldl (fun s x => insert x s) ∅

/-- The registration `application_offer_event` hands on to
`application::offer_event` (and thence the runtime). -/
structure OfferEventCall where
  service : Nat
  instance_ : Nat
  notifier : Nat
  event_groups : Finset Nat
  is_field : Bool
  cycle : Nat
  change_resets_cycle : Bool
  update_on_change : Bool
deriving DecidableEq

/-- `application_offer_event` (vsomeipc.cpp:200-213): converts the eventgroup
array to a `std::set` and forwards the registration (event type
`ET_FIELD`/`ET_EVENT` from `is_field`, cycle as milliseconds). -/
def application_offer_event (service instance_ notifier : Nat) (egs : List Nat)
    (is_field : Bool) (cycle : Nat) (change_resets_cycle update_on_change : Bool) :
    OfferEventCall :=
  { service := service, instance_ := instance_, notifier := notifier,
    event_groups := eventgroups_to_set egs, is_field := is_field, cycle := cycle,
    change_resets_cycle := change_resets_cycle, update_on_change := update_on_change }

/-- The registration `application_request_event` hands on to
`application::request_event` (and thence the runtime). -/
structure RequestEventCall where
  service : Nat
  instance_ : Nat
  notifier : Nat
  event_groups : Finset Nat
  is_field : Bool
deriving DecidableEq

/-- `application_request_event` (vsomeipc.cpp:221-232): converts the
eventgroup array to a `std::set` and forwards the registration. -/
def application_request_event (service instance_ notifier : Nat) (egs : List Nat)
    (is_field : Bool) : RequestEventCall :=
  { service := service, instance_ := instance_, notifier := notifier,
    event_groups := eventgroups_to_set egs, is_field := is_field }

theorem eventgroups_foldl_insert (l : List Nat) (s : Finset Nat) :
    l.foldl (fun s x => insert x s) s = s ∪ l.toFinset := by
  induction l generalizing s with
  | nil => simp
  | cons a t ih =>
    rw [List.foldl_cons, ih]
    ext x
    simp only [Finset.mem_union, Finset.mem_insert, List.toFinset_cons, List.mem_toFinset]
    tauto

theorem eventgroups_to_set_eq_toFinset (l : List Nat) :
    eventgroups_to_set l = l.toFinset := by
  rw [eventgroups_to_set, eventgroups_foldl_insert]
  simp

/-- C1: every call to `send_response` hands the runtime's send operation a
message with exactly the given service, instance, method, client, session
and interface-version fields, message type `0x80` (response), the given
return code, and a payload built from the given bytes. -/
theorem send_response_exact_header (st : RuntimeState)
    (service instance_ method client session major : Nat)
    (reliable : Bool) (rc : Nat) (data : List Nat) :
    (send_response st service instance_ method client session major reliable rc data).1.service
        = service ∧
    (send_response st service instance_ method client session major reliable rc data).1.instance_
        = instance_ ∧
    (send_response st service instance_ method client session major reliable rc data).1.method
        = method ∧
    (send_response st service instance_ method client session major reliable rc data).1.client
        = some client ∧
    (send_response st service instance_ method client session major reliable rc data).1.session
        = some session ∧
    (send_response st service instance_ method client session major reliable rc
        data).1.interface_version = major ∧
    (send_response st service instance_ method client session major reliable rc
        data).1.message_type = 0x80 ∧
    (send_response st service instance_ method client session major reliable rc
        data).1.return_code = rc ∧
    (send_response st service instance_ method client session major reliable rc data).1.payload
        = some (create_payload data) := by
  simp [send_response, vsomeip_send, create_message, create_payload, Message.set_service,
    Message.set_instance, Message.set_method, Message.set_client, Message.set_session,
    Message.set_interface_version, Message.set_message_type, Message.set_return_code,
    Message.set_payload, MT_RESPONSE, MT_REQUEST, MT_UNKNOWN]

/-- C2: `send_request` builds a request populated with the given service,
instance, method, interface version and payload, leaves the client and
session ids unassigned (the runtime assigns the session at send time), and
returns the session id of the sent message. -/
theorem send_request_leaves_session_to_runtime (st : RuntimeState)
    (service instance_ method major : Nat) (data : List Nat) (reliable : Bool) :
    (send_request st service instance_ method major data reliable).1.service = service ∧
    (send_request st service instance_ method major data reliable).1.instance_ = instance_ ∧
    (send_request st service instance_ method major data reliable).1.method = method ∧
    (send_request st service instance_ method major data reliable).1.interface_version
        = major ∧
    (send_request st service instance_ method major data reliable).1.payload
        = some (create_payload data) ∧
    (send_request st service instance_ method major data reliable).1.client = none ∧
    (send_request st service instance_ method major data reliable).1.session = none ∧
    (send_request st service instance_ method major data reliable).2.1.session
        = some st.nextSession ∧
    (send_request st service instance_ method major data reliable).2.2.1
        = (send_request st service instance_ method major data reliable).2.1.get_session := by
  simp [send_request, vsomeip_send, create_request, create_payload, Message.set_service,
    Message.set_instance, Message.set_method, Message.set_interface_version,
    Message.set_payload, Message.get_session, MT_REQUEST]

/-- C3: the boundary enum translations are the identity pass-through on every
value in the recognized message-type / return-code sets, and terminate the
process (modelled as `none`) on every value outside them. -/
theorem enum_translation_identity_or_fatal (mt rc : Nat) :
    fromMessageType mt = (if mt ∈ recognizedMessageTypes then some mt else none) ∧
    fromReturnCode rc = (if rc ∈ recognizedReturnCodes then some rc else none) := by
  constructor
  · by_cases h : mt ∈ recognizedMessageTypes
    · rw [if_pos h]
      rw [recognizedMessageTypes] at h
      fin_cases h <;> decide
    · rw [if_neg h]
      rw [recognizedMessageTypes] at h
      simp only [List.mem_cons, List.not_mem_nil, or_false, not_or] at h
      obtain ⟨h0, h1, h2, h3, h4, h5, h6, h7, h8, h9, h10⟩ := h
      simp [fromMessageType, MT_REQUEST, MT_REQUEST_NO_RETURN, MT_NOTIFICATION,
        MT_REQUEST_ACK, MT_REQUEST_NO_RETURN_ACK, MT_NOTIFICATION_ACK, MT_RESPONSE,
        MT_ERROR, MT_RESPONSE_ACK, MT_ERROR_ACK, MT_UNKNOWN, h0, h1, h2, h3, h4, h5,
        h6, h7, h8, h9, h10]
  · by_cases h : rc ∈ recognizedReturnCodes
    · rw [if_pos h]
      rw [recognizedReturnCodes] at h
      fin_cases h <;> decide
    · rw [if_neg h]
      rw [recognizedReturnCodes] at h
      simp only [List.mem_cons, List.not_mem_nil, or_false, not_or] at h
      obtain ⟨h0, h1, h2, h3, h4, h5, h6, h7, h8, h9, h10, h11⟩ := h
      simp [fromReturnCode, E_OK, E_NOT_OK, E_UNKNOWN_SERVICE, E_UNKNOWN_METHOD,
        E_NOT_READY, E_NOT_REACHABLE, E_TIMEOUT, E_WRONG_PROTOCOL_VERSION,
        E_WRONG_INTERFACE_VERSION, E_MALFORMED_MESSAGE, E_WRONG_MESSAGE_TYPE,
        E_UNKNOWN, h0, h1, h2, h3, h4, h5, h6, h7, h8, h9, h10, h11]

/-- C4: `create_application` returns the null handle exactly when creation or
initialization of the underlying session fails (no partial object is
observable), and on success the returned application has its dispatch loop
started. -/
theorem create_application_null_iff_failure (e : RuntimeEnv) (nm : String) :
    (create_application e nm = none ↔ ¬(e.createApplicationOk = true ∧ e.initOk = true)) ∧
    (∀ a, create_application e nm = some a → a.dispatchRunning = true) := by
  rcases e with ⟨co, io⟩
  cases co <;> cases io <;>
    simp [create_application, application_create]

/-- Witness for C4 at a concrete environment. -/
theorem create_application_null_iff_failure_witness :
    (create_application ⟨true, true⟩ "app" = none ↔ ¬(true = true ∧ true = true)) ∧
    (∀ a, create_application ⟨true, true⟩ "app" = some a → a.dispatchRunning = true) :=
  create_application_null_iff_failure ⟨true, true⟩ "app"

/-- C5: `send_error` sends a message echoing the given client and session
ids, with message type fixed to `0x80` (response, not `0x81` error), the
given return code, and no payload attached. -/
theorem send_error_response_type_no_payload (st : RuntimeState)
    (service instance_ method client session major : Nat) (reliable : Bool) (rc : Nat) :
    (send_error st service instance_ method client session major reliable rc).1.client
        = some client ∧
    (send_error st service instance_ method client session major reliable rc).1.session
        = some session ∧
    (send_error st service instance_ method client session major reliable rc).1.message_type
        = 0x80 ∧
    (send_error st service instance_ method client session major reliable rc).1.message_type
        ≠ 0x81 ∧
    (send_error st service instance_ method client session major reliable rc).1.return_code
        = rc ∧
    (send_error st service instance_ method client session major reliable rc).1.payload
        = none := by
  simp [send_error, vsomeip_send, create_message, Message.set_service, Message.set_instance,
    Message.set_method, Message.set_client, Message.set_session,
    Message.set_interface_version, Message.set_message_type, Message.set_return_code,
    MT_RESPONSE, MT_REQUEST, MT_UNKNOWN]

/-- C6: `payload_get_info` after `application_payload_create(B)` reports a
view with exactly the bytes of `B` and length `B.length`; after
`payload_create_empty` it reports length `0`; on a non-null handle whose
underlying payload is absent it reports a null pointer and length `0`. -/
theorem payload_info_roundtrip (B : List Nat) :
    payload_get_info (application_payload_create B) = some ⟨some B, B.length⟩ ∧
    payload_get_info payload_create_empty_c = some ⟨some [], 0⟩ ∧
    payload_get_info (some none) = some ⟨none, 0⟩ := by
  simp [payload_get_info, application_payload_create, payload_create_empty_c,
    wrap_payload_handle, create_payload, create_payload_empty]

/-- C7: when the underlying application object exists, the destructor issues
exactly: clear all handlers, then stop the run loop, then (iff the dispatch
thread is joinable) join it, then release the session from the runtime — in
this order, with no step reordered or skipped. -/
theorem destructor_event_order (s : AppCore) :
    (application_destructor true s).2 =
      [RtEvent.clearAllHandlers, RtEvent.appStop] ++
        (if s.threadJoinable then [RtEvent.joinThread] else []) ++
        [RtEvent.removeApplication] := by
  rcases s with ⟨r, j⟩
  cases j <;> simp [application_destructor, application_stop]

/-- C8: `stop` is idempotent — a single call always leaves the stopped state
(run loop inactive, thread not joinable), a second call leaves that state
unchanged and issues no join, and a single call joins the thread exactly
when it was joinable (so at most one join ever happens). -/
theorem stop_idempotent (s : AppCore) :
    (application_stop s).1 = ⟨false, false⟩ ∧
    application_stop (application_stop s).1 = (⟨false, false⟩, [RtEvent.appStop]) ∧
    ((application_stop s).2).count RtEvent.joinThread
        = (if s.threadJoinable then 1 else 0) := by
  rcases s with ⟨r, j⟩
  cases j <;> simp [application_stop, List.count_cons] <;> decide

/-- C9: each boundary destroy operation is a no-op on the null handle: no
object is freed and the operation returns normally. -/
theorem destroy_null_is_noop :
    application_delete none = false ∧
    payload_destroy none = false ∧
    message_destroy none = false := by
  refine ⟨rfl, rfl, rfl⟩

/-- C10: the registrations forwarded by `application_offer_event` and
`application_request_event` depend on the caller's eventgroup array only
through the set of its elements: arrays equal up to duplication and
reordering produce identical registrations. -/
theorem eventgroups_invariant_under_dup_reorder
    (service instance_ notifier cycle : Nat)
    (is_field change_resets_cycle update_on_change : Bool) (l1 l2 : List Nat)
    (h : ∀ x, x ∈ l1 ↔ x ∈ l2) :
    application_offer_event service instance_ notifier l1 is_field cycle
        change_resets_cycle update_on_change =
      application_offer_event service instance_ notifier l2 is_field cycle
        change_resets_cycle update_on_change ∧
    application_request_event service instance_ notifier l1 is_field =
      application_request_event service instance_ notifier l2 is_field := by
  have hset : eventgroups_to_set l1 = eventgroups_to_set l2 := by
    rw [eventgroups_to_set_eq_toFinset, eventgroups_to_set_eq_toFinset]
    ext x
    simp only [List.mem_toFinset]
    exact h x
  constructor
  · simp [application_offer_event, hset]
  · simp [application_request_event, hset]

/-- Witness for C10: `[1, 2, 2]` and `[2, 1]` (a duplicate collapsed and the
order reversed) produce identical registrations. -/
theorem eventgroups_invariant_under_dup_reorder_witness :
    application_offer_event 4 5 6 [1, 2, 2] true 100 false true =
      application_offer_event 4 5 6 [2, 1] true 100 false true ∧
    application_request_event 4 5 6 [1, 2, 2] true =
      application_request_event 4 5 6 [2, 1] true :=
  eventgroups_invariant_under_dup_reorder 4 5 6 100 true false true [1, 2, 2] [2, 1]
    (by intro x; simp only [List.mem_cons, List.not_mem_nil, or_false]; tauto)
